import Mathlib

/-!
Shallow embedding of `dash/_validate.py` (callback declaration validation and
multi-output return-value arity checking), together with the bindings data
model from `dash/dependencies.py` and the callback-identifier encoding from
`dash/_utils.py` that `_validate.py` relies on.

Python values are modelled explicitly: a `component_id` can be a string, a
dict (structured key) or any other object; a `component_property` can be a
string or any other object; an argument list can contain objects that are not
dependency instances, and an argument "list" may fail to be a list or tuple at
all.  Raised exceptions are modelled with `Except`, one constructor per
exception class raised by the source.
-/

namespace DashValidate

/-- The possible runtime types of `component_id`: a string, a dict
(structured key), or any other Python object.  Non-string constructors carry
the `str()` form of the value, used by `DashDependency.__str__`. -/
inductive CompId where
  | str (s : String)
  | dict (repr : String)
  | other (repr : String)
deriving DecidableEq, Repr

/-- `str()` of a `component_id` value. -/
def CompId.pyStr : CompId → String
  | .str s => s
  | .dict r => r
  | .other r => r

/-- The possible runtime types of `component_property`: a string or any other
Python object (carrying its `str()` form). -/
inductive PropVal where
  | str (s : String)
  | other (repr : String)
deriving DecidableEq, Repr

/-- `str()` of a `component_property` value. -/
def PropVal.pyStr : PropVal → String
  | .str s => s
  | .other r => r

/-- The three dependency classes `Output`, `Input`, `State` of
`dash.dependencies` (siblings deriving from `DashDependency`; no instance of
one is an instance of another). -/
inductive Role where
  | Output
  | Input
  | State
deriving DecidableEq, Repr

/-- A `DashDependency` instance: `component_id`, `component_property`, the
concrete class, and whether the object carries a legacy `component_event`
attribute (probed with `hasattr` in the source). -/
structure Dep where
  role : Role
  component_id : CompId
  component_property : PropVal
  has_component_event : Bool
deriving DecidableEq, Repr

/-- `DashDependency.__str__`: `"{}.{}".format(component_id, component_property)`. -/
def depStr (d : Dep) : String :=
  d.component_id.pyStr ++ "." ++ d.component_property.pyStr

/-- An element of an argument list: either a `DashDependency` instance or some
other Python object (which fails the `isinstance(arg, cls)` check). -/
inductive ArgEl where
  | dep (d : Dep)
  | notDep
deriving DecidableEq, Repr

/-- `str()` of an argument-list element; only dependency instances reach the
places where the source stringifies elements. -/
def elStr : ArgEl → String
  | .dep d => depStr d
  | .notDep => "<object>"

/-- `DashDependency.__eq__`: `isinstance(other, DashDependency) and
str(self) == str(other)`.  Comparison of two non-dependency objects falls back
to identity in Python; the embedding treats distinct opaque objects as
unequal. -/
def elEq : ArgEl → ArgEl → Bool
  | .dep a, .dep b => depStr a = depStr b
  | _, _ => false

/-- `isinstance(arg, cls)` for `cls` one of `Output`/`Input`/`State`. -/
def ArgEl.isinstance : ArgEl → Role → Bool
  | .dep d, cls => d.role = cls
  | .notDep, _ => false

/-- An argument list as passed by the user: a Python list/tuple of elements,
or some other object (failing `isinstance(args, (list, tuple))`). -/
inductive Args where
  | pylist (l : List ArgEl)
  | notList
deriving DecidableEq, Repr

/-- The elements of an argument list.  A non-list argument never reaches the
code that iterates (argument validation raises first), so the empty list
stands in for that unreachable case. -/
def Args.elems : Args → List ArgEl
  | .pylist l => l
  | .notList => []

/-- Python truthiness of an argument list (`if state and not inputs`): a
list/tuple is truthy iff non-empty.  A non-list object never reaches the
truthiness test (argument validation raises first). -/
def Args.truthy : Args → Bool
  | .pylist l => l ≠ []
  | .notList => true

/-- The `output` argument of `validate_callback`: `is_multi` is
`isinstance(output, (list, tuple))`. -/
inductive OutputSpec where
  | single (o : ArgEl)
  | multi (os : List ArgEl)
deriving DecidableEq, Repr

/-- The list `outputs = output if is_multi else [output]`. -/
def OutputSpec.toList : OutputSpec → List ArgEl
  | .single o => [o]
  | .multi os => os

/-- A component of the layout tree, as queried by the validator: its
`available_properties` and `available_wildcard_properties`. -/
structure ComponentInfo where
  available_properties : List String
  available_wildcard_properties : List String
deriving DecidableEq, Repr

/-- The layout tree as queried by the validator: the root's optional `id`
(`getattr(layout, "id", None)`) and property sets, and the descendant
components indexed by id (`arg_id in layout` tests membership among
descendants; `layout[arg_id]` looks a descendant up by id). -/
structure Layout where
  top_id : Option String
  top : ComponentInfo
  members : List (String × ComponentInfo)
deriving DecidableEq, Repr

/-- The exception classes raised by `_validate.py`, plus the `TypeError`
Python itself raises when `arg_id not in layout` is evaluated with
`layout = None` (reachable only when `validate_callback_args` is called
directly with `validate_ids` set and no layout).  `DuplicateCallbackOutput`
is raised at three sites with two distinct messages; the flag records whether
the raise came from the already-registered check (`true`) or from the
duplicate-within-one-multi-output check (`false`). -/
inductive PyErr where
  | LayoutIsNotDefined
  | IncorrectTypeException
  | InvalidComponentIdError
  | NonExistentIdException
  | NonExistentPropException
  | NonExistentEventException
  | MissingInputsException
  | SameInputOutputException
  | DuplicateCallbackOutput (already_assigned : Bool)
  | InvalidCallbackReturnValue
  | PyTypeError
deriving DecidableEq, Repr

/-- `app.config`. -/
structure AppConfig where
  suppress_callback_exceptions : Bool
deriving DecidableEq, Repr

/-- The application object as read by `validate_callback`: its config and the
keys of `app.callback_map` (the registered callback set; keys are the strings
produced by `create_callback_id` at registration time). -/
structure App where
  config : AppConfig
  callback_map : List String
deriving DecidableEq, Repr

/-- `component = layout if top_id == arg_id else layout[arg_id]`.  The default
branch of `getD` is unreachable at the call site: the membership check of
`validate_one` guarantees `arg_id` is a member whenever it is not the top id. -/
def resolve_component (L : Layout) (arg_id : String) : ComponentInfo :=
  if L.top_id = some arg_id then L.top
  else (L.members.lookup arg_id).getD ⟨[], []⟩

/-- The `if validate_ids:` block of `validate_callback_args`, for one binding:
id existence, property existence, then the legacy `component_event` probe.
`arg_id` and `arg_prop` are the binding's (string) id and property; evaluating
`arg_id not in layout` against a `None` layout is Python's `TypeError`. -/
def id_checks (d : Dep) (arg_id arg_prop : String) :
    Option Layout → Except PyErr Unit
  | none => .error .PyTypeError
  | some L =>
    -- `top_id = getattr(layout, "id", None)`; `arg_id != top_id` is false
    -- only when `top_id` is the same string
    if ¬ (L.members.map Prod.fst).contains arg_id ∧ L.top_id ≠ some arg_id then
      .error .NonExistentIdException
    else
      -- `arg_prop` is checked only when truthy (non-empty);
      -- `arg_prop.startswith(w)` is prefix comparison on the characters
      if arg_prop ≠ "" ∧
          ¬ (resolve_component L arg_id).available_properties.contains arg_prop ∧
          ¬ (resolve_component L arg_id).available_wildcard_properties.any
              (fun w => w.data.isPrefixOf arg_prop.data) then
        .error .NonExistentPropException
      else if d.has_component_event then
        .error .NonExistentEventException
      else .ok ()

/-- The body of the `for arg in args` loop of `validate_callback_args`: the
per-binding checks, in source order — `isinstance(arg, cls)`, `component_id`
type, `component_property` type, `"."` in `component_id`, then (only under
`validate_ids`) the id/property/event checks of `id_checks`. -/
def validate_one (arg : ArgEl) (cls : Role) (layout : Option Layout)
    (validate_ids : Bool) : Except PyErr Unit :=
  match arg with
  | .notDep => .error .IncorrectTypeException
  | .dep d =>
    if d.role ≠ cls then .error .IncorrectTypeException
    else
      match d.component_id with
      | .dict _ => .error .IncorrectTypeException
      | .other _ => .error .IncorrectTypeException
      | .str arg_id =>
        match d.component_property with
        | .other _ => .error .IncorrectTypeException
        | .str arg_prop =>
          -- invalid_characters = ["."]; `x in arg.component_id` is substring
          -- containment, and for the single character "." it is character
          -- containment
          if arg_id.data.contains '.' then .error .InvalidComponentIdError
          else if validate_ids then id_checks d arg_id arg_prop layout
          else .ok ()

/-- The `for arg in args` loop of `validate_callback_args`: bindings checked
in declared order, first violation raised. -/
def validate_args_list : List ArgEl → Role → Option Layout → Bool → Except PyErr Unit
  | [], _, _, _ => .ok ()
  | a :: rest, cls, layout, v =>
    match validate_one a cls layout v with
    | .error e => .error e
    | .ok _ => validate_args_list rest cls layout v

/-- `validate_callback_args(args, cls, layout, validate_ids)`. -/
def validate_callback_args (args : Args) (cls : Role) (layout : Option Layout)
    (validate_ids : Bool) : Except PyErr Unit :=
  match args with
  | .notList => .error .IncorrectTypeException
  | .pylist l => validate_args_list l cls layout validate_ids

/-- Modelled from the spec: `create_callback_id` lives in `dash/_utils.py`,
which is not part of the sources here.  The spec describes multi-output
identifiers as "encoded as a delimited, order-independent composite"; the
decomposition in `validate_callback` (`x[2:-2].split("...") if
x.startswith("..")`) fixes the encoding: the member strings
`"{component_id}.{component_property}"` joined by `"..."` and bracketed by
`".."` on both sides.  A single output's identifier is its
`"{component_id}.{component_property}"` string. -/
def create_callback_id : OutputSpec → String
  | .single o => elStr o
  | .multi os => ".." ++ String.intercalate "..." (os.map elStr) ++ ".."

/-- The decomposition applied to each key of `app.callback_map` when building
the `callbacks` set: a composite key (starting with `".."`) is split into its
member binding strings (`x[2:-2].split("...")`); any other key stands for
itself. -/
def decompose_key (x : String) : List String :=
  if x.startsWith ".." then ((x.drop 2).dropRight 2).splitOn "..." else [x]

/-- The flattened set of already-registered binding strings:
`set(chain(*(decompose(x) for x in app.callback_map)))`.  Modelled as a list;
only membership is ever used. -/
def registered_bindings : List String → List String
  | [] => []
  | x :: rest => decompose_key x ++ registered_bindings rest

/-- The already-registered check at the end of `validate_callback` (the
`callback_id = create_callback_id(output)` line onwards): for a multi output,
raise if the registered-binding set intersects the candidate members' strings;
for a single output, raise if its identifier is itself a registered member. -/
def check_output_registered (output : OutputSpec) (callback_map : List String) :
    Except PyErr Unit :=
  let callback_id := create_callback_id output
  let callbacks := registered_bindings callback_map
  match output with
  | .multi os =>
    let dups := callbacks.filter (fun x => (os.map elStr).contains x)
    if dups ≠ [] then .error (.DuplicateCallbackOutput true) else .ok ()
  | .single _ =>
    if callbacks.contains callback_id then .error (.DuplicateCallbackOutput true)
    else .ok ()

/-- The body of the `for i in inputs` loop of `validate_callback`: `bad` is
set iff the input equals some output (`o == i` via `DashDependency.__eq__`),
comparing against every member of a multi output or against the single output
object. -/
def collision_probe (output : OutputSpec) (i : ArgEl) : Bool :=
  match output with
  | .multi os => os.any fun o => elEq o i
  | .single o => elEq o i

/-- `validate_callback(app, layout, output, inputs, state)`.  The application
object is threaded through and returned so that the absence of mutation is
part of the statement: the source contains no assignment to `app`,
`app.callback_map` or any argument, so every branch returns the input `app`
unchanged alongside the raise/return outcome. -/
def validate_callback (app : App) (layout : Option Layout) (output : OutputSpec)
    (inputs state : Args) : App × Except PyErr Unit :=
  -- the Python local `validate_ids = not app.config.suppress_callback_exceptions`
  -- is inlined below, as is `outputs = output if is_multi else [output]`
  if layout.isNone && !app.config.suppress_callback_exceptions then
    (app, .error .LayoutIsNotDefined)
  else
    match validate_callback_args (.pylist output.toList) .Output layout
        (!app.config.suppress_callback_exceptions) with
    | .error e => (app, .error e)
    | .ok _ =>
      match validate_callback_args inputs .Input layout
          (!app.config.suppress_callback_exceptions) with
      | .error e => (app, .error e)
      | .ok _ =>
        match validate_callback_args state .State layout
            (!app.config.suppress_callback_exceptions) with
        | .error e => (app, .error e)
        | .ok _ =>
          if state.truthy && !inputs.truthy then
            (app, .error .MissingInputsException)
          else
            -- `for i in inputs: ... if bad: raise`; `bad` is a dependency
            -- object, hence always truthy when set
            match (inputs.elems).find? (collision_probe output) with
            | some _ => (app, .error .SameInputOutputException)
            | none =>
              match output with
              | .multi os =>
                -- `len(set(output)) != len(output)`: set membership uses
                -- `DashDependency.__eq__`/`__hash__`, i.e. string forms; only
                -- dependency instances reach this point (argument validation
                -- raised otherwise)
                if (os.map elStr).dedup.length ≠ os.length then
                  (app, .error (.DuplicateCallbackOutput false))
                else
                  (app, check_output_registered output app.callback_map)
              | .single _ =>
                (app, check_output_registered output app.callback_map)

/-- A Python value returned by a callback body, insofar as
`validate_multi_return` inspects it: a list, a tuple, or any other object. -/
inductive RetVal where
  | pylist (xs : List String)
  | pytuple (xs : List String)
  | otherObj
deriving DecidableEq, Repr

/-- `isinstance(output_value, (list, tuple))`. -/
def RetVal.isListLike : RetVal → Bool
  | .pylist _ => true
  | .pytuple _ => true
  | .otherObj => false

/-- `len(output_value)` for list-like values (never evaluated otherwise). -/
def RetVal.len : RetVal → Nat
  | .pylist xs => xs.length
  | .pytuple xs => xs.length
  | .otherObj => 0

/-- `validate_multi_return(output, output_value, callback_id)`: the returned
value must be a list or tuple, and its length must equal the number of
declared outputs. -/
def validate_multi_return (output : List ArgEl) (output_value : RetVal) :
    Except PyErr Unit :=
  if ¬ output_value.isListLike then .error .InvalidCallbackReturnValue
  else if ¬ (output_value.len = output.length) then .error .InvalidCallbackReturnValue
  else .ok ()

/-! ## Helper lemmas -/

/-- Validating a concatenated argument list first validates the front part;
its first violation, if any, is the result. -/
theorem validate_args_list_append (l1 l2 : List ArgEl) (cls : Role)
    (layout : Option Layout) (v : Bool) :
    validate_args_list (l1 ++ l2) cls layout v =
      match validate_args_list l1 cls layout v with
      | .error e => .error e
      | .ok _ => validate_args_list l2 cls layout v := by
  induction l1 with
  | nil => simp [validate_args_list]
  | cons a rest ih =>
    simp only [List.cons_append, validate_args_list]
    cases validate_one a cls layout v <;> simp [ih]

/-- When the id exists (as member or top id), the property is acceptable
(empty, declared, or wildcard-matched) and the binding carries the legacy
event marker, the id checks raise the event error. -/
theorem id_checks_event (d : Dep) (s p : String) (L : Layout)
    (hm2 : ¬ (¬ (L.members.map Prod.fst).contains s = true ∧ L.top_id ≠ some s))
    (hp2 : ¬ (p ≠ "" ∧
      ¬ (resolve_component L s).available_properties.contains p = true ∧
      ¬ ((resolve_component L s).available_wildcard_properties.any
          (fun w => w.data.isPrefixOf p.data)) = true))
    (hev : d.has_component_event = true) :
    id_checks d s p (some L) = .error .NonExistentEventException := by
  simp only [id_checks]
  rw [if_neg hm2, if_neg hp2, if_pos hev]

/-- The id checks never raise the property error for an empty property name:
the property-existence check is guarded by the truthiness of `arg_prop`. -/
theorem id_checks_ne_prop (d : Dep) (s : String) (layout : Option Layout) :
    id_checks d s "" layout ≠ .error .NonExistentPropException := by
  cases layout with
  | none => simp [id_checks]
  | some L =>
    simp only [id_checks]
    split
    · simp
    · split
      · rename_i hc
        exact absurd rfl hc.1
      · split <;> simp

/-- A single binding whose `component_property` is the empty string never
produces the property error, whatever else it contains. -/
theorem validate_one_empty_prop (d : Dep) (cls : Role) (layout : Option Layout)
    (h : d.component_property = .str "") :
    validate_one (.dep d) cls layout true ≠ .error .NonExistentPropException := by
  obtain ⟨role, cid, prop, ev⟩ := d
  have h' : prop = PropVal.str "" := h
  subst h'
  by_cases hr : role = cls
  · subst hr
    cases cid with
    | dict r => simp [validate_one]
    | other r => simp [validate_one]
    | str s =>
      by_cases hdot : '.' ∈ s.data
      · simp [validate_one, hdot]
      · have hne := id_checks_ne_prop ⟨role, .str s, .str "", ev⟩ s layout
        simp [validate_one, hdot, hne]
  · simp [validate_one, hr]

/-- An argument list all of whose bindings have the empty string as
`component_property` never produces the property error. -/
theorem validate_args_list_empty_prop (l : List ArgEl) (cls : Role)
    (layout : Option Layout)
    (h : ∀ d : Dep, ArgEl.dep d ∈ l → d.component_property = .str "") :
    validate_args_list l cls layout true ≠ .error .NonExistentPropException := by
  induction l with
  | nil => simp [validate_args_list]
  | cons a rest ih =>
    simp only [validate_args_list]
    cases ha : validate_one a cls layout true with
    | error e =>
      intro hcontra
      injection hcontra with he
      subst he
      cases a with
      | notDep => simp [validate_one] at ha
      | dep d =>
        exact validate_one_empty_prop d cls layout
          (h d (List.mem_cons_self _ _)) ha
    | ok u =>
      exact ih (fun d hd => h d (List.mem_cons_of_mem _ hd))

/-! ## Claims -/

/-- C1: composite identifiers in the registered set (keys beginning with the
`".."` delimiter) are decomposed into their member binding strings
(`registered_bindings`); the already-registered check fails with
`DuplicateCallbackOutput` (the "already assigned" variant, the spec's
OutputAlreadyRegistered) iff, for a multi output, some output member's
string form is among the registered member bindings — whether that member
was registered alone or inside a composite — and, for a single output, iff
its identifier string is among the registered member bindings. -/
theorem C1_output_already_registered_iff (callback_map : List String)
    (os : List ArgEl) (o : ArgEl) :
    (check_output_registered (.multi os) callback_map =
        .error (.DuplicateCallbackOutput true) ↔
      ∃ y ∈ os, elStr y ∈ registered_bindings callback_map) ∧
    (check_output_registered (.single o) callback_map =
        .error (.DuplicateCallbackOutput true) ↔
      elStr o ∈ registered_bindings callback_map) := by
  constructor
  · simp only [check_output_registered]
    split
    · rename_i hne
      simp only [ne_eq, List.filter_eq_nil_iff] at hne
      push_neg at hne
      obtain ⟨x, hx, hp⟩ := hne
      rw [List.elem_iff] at hp
      obtain ⟨y, hy, rfl⟩ := List.mem_map.mp hp
      simp only [true_iff]
      exact ⟨y, hy, hx⟩
    · rename_i hnil
      simp only [ne_eq, not_not] at hnil
      constructor
      · intro h; cases h
      · rintro ⟨y, hy, hmem⟩
        exfalso
        have := List.filter_eq_nil_iff.mp hnil (elStr y) hmem
        rw [List.elem_iff] at this
        exact this (List.mem_map_of_mem elStr hy)
  · simp only [check_output_registered, create_callback_id]
    split
    · rename_i hc
      rw [List.elem_iff] at hc
      simp only [true_iff]
      exact hc
    · rename_i hc
      rw [List.elem_iff] at hc
      constructor
      · intro h; cases h
      · intro h; exact absurd h hc

/-- C2: the code raises the malformed-argument error for a dict (structured
key) `component_id`, because the type check admits strings only — even
though the raised message itself says "component_id must be a string or
dict".  The spec and claim state that a dict passes the `component_id` type
check; the code contradicts its own error message here. -/
theorem C2_dict_component_id_raises_incorrect_type :
    validate_callback_args
        (.pylist [.dep ⟨.Input, .dict "dictrepr", .str "value", false⟩])
        .Input none false
      = .error .IncorrectTypeException := rfl

/-- C3 counterexample: an otherwise well-formed binding that carries the
legacy `component_event` marker passes validation when the
enforce-id-checks flag is disabled — the event probe sits inside the
`if validate_ids:` block — refuting "regardless of whether the
enforce-id-checks flag is enabled or disabled". -/
theorem C3_counterexample_event_marker_passes_without_id_checks :
    validate_callback_args
        (.pylist [.dep ⟨.Input, .str "a", .str "value", true⟩]) .Input none false
      = .ok () := rfl

/-- C3 (amended): an otherwise well-formed binding carrying the legacy
`component_event` marker fails with the obsolete-construct error
(`NonExistentEventException`) when the enforce-id-checks flag is enabled;
with the flag disabled the probe is skipped. -/
theorem C3_event_marker_rejected_when_id_checks_enabled (cls : Role)
    (L : Layout) (s p : String)
    (hdot : s.data.contains '.' = false)
    (hmem : (L.members.map Prod.fst).contains s = true ∨ L.top_id = some s)
    (hprops : p = "" ∨
      (resolve_component L s).available_properties.contains p = true ∨
      (resolve_component L s).available_wildcard_properties.any
        (fun w => w.data.isPrefixOf p.data) = true) :
    validate_callback_args (.pylist [.dep ⟨cls, .str s, .str p, true⟩]) cls
        (some L) true
      = .error .NonExistentEventException := by
  have hd2 : '.' ∉ s.data := by simpa using hdot
  have hm2 : ¬ (¬ (L.members.map Prod.fst).contains s = true ∧
      L.top_id ≠ some s) := by
    rcases hmem with hm | hm
    · exact fun hc => hc.1 hm
    · exact fun hc => hc.2 hm
  have hp2 : ¬ (p ≠ "" ∧
      ¬ (resolve_component L s).available_properties.contains p = true ∧
      ¬ ((resolve_component L s).available_wildcard_properties.any
          (fun w => w.data.isPrefixOf p.data)) = true) := by
    rcases hprops with hp | hp | hp
    · exact fun hc => hc.1 hp
    · exact fun hc => hc.2.1 hp
    · exact fun hc => hc.2.2 hp
  have he := id_checks_event ⟨cls, .str s, .str p, true⟩ s p L hm2 hp2 rfl
  have h1 : validate_one (.dep ⟨cls, .str s, .str p, true⟩) cls (some L) true
      = .error .NonExistentEventException := by
    simp [validate_one, hd2, he]
  simp only [validate_callback_args, validate_args_list, h1]

/-- Witness for C3 (amended): a concrete event-marked binding, valid id and
property, flag enabled. -/
theorem C3_event_marker_rejected_when_id_checks_enabled_witness :
    validate_callback_args
        (.pylist [.dep ⟨.Input, .str "a", .str "value", true⟩]) .Input
        (some ⟨some "root", ⟨[], []⟩, [("a", ⟨["value"], []⟩)]⟩) true
      = .error .NonExistentEventException :=
  C3_event_marker_rejected_when_id_checks_enabled .Input
    ⟨some "root", ⟨[], []⟩, [("a", ⟨["value"], []⟩)]⟩ "a" "value"
    (by decide) (Or.inl (by decide)) (Or.inr (Or.inl (by decide)))

/-- C4: a declaration with a non-empty State list and an empty Input list,
whose layout guard and output/state argument checks pass, fails with
`MissingInputsException`. -/
theorem C4_state_without_inputs_fails_missing_inputs (app : App)
    (layout : Option Layout) (output : OutputSpec) (sl : List ArgEl)
    (hlay : (layout.isNone && !app.config.suppress_callback_exceptions) = false)
    (hout : validate_callback_args (.pylist output.toList) .Output layout
      (!app.config.suppress_callback_exceptions) = .ok ())
    (hstate : validate_callback_args (.pylist sl) .State layout
      (!app.config.suppress_callback_exceptions) = .ok ())
    (hne : sl ≠ []) :
    (validate_callback app layout output (.pylist []) (.pylist sl)).2
      = .error .MissingInputsException := by
  have hin : validate_callback_args (.pylist []) .Input layout
      (!app.config.suppress_callback_exceptions) = .ok () := rfl
  unfold validate_callback
  simp only [hlay, Bool.false_eq_true, if_false, hout, hin, hstate, Args.truthy]
  simp [hne]

/-- Witness for C4: one State binding, no Inputs, id checks suppressed. -/
theorem C4_state_without_inputs_fails_missing_inputs_witness :
    (validate_callback ⟨⟨true⟩, []⟩ none
        (.single (.dep ⟨.Output, .str "o", .str "p", false⟩))
        (.pylist []) (.pylist [.dep ⟨.State, .str "s", .str "q", false⟩])).2
      = .error .MissingInputsException :=
  C4_state_without_inputs_fails_missing_inputs ⟨⟨true⟩, []⟩ none
    (.single (.dep ⟨.Output, .str "o", .str "p", false⟩))
    [.dep ⟨.State, .str "s", .str "q", false⟩]
    (by decide) (by rfl) (by rfl) (by decide)

/-- C5: when some Input binding has the same `component_id` and
`component_property` as some Output binding (single or multi mode) and the
preceding checks pass, validation fails with `SameInputOutputException`. -/
theorem C5_input_equals_output_fails_collision (app : App)
    (layout : Option Layout) (output : OutputSpec) (il : List ArgEl) (st : Args)
    (hlay : (layout.isNone && !app.config.suppress_callback_exceptions) = false)
    (hout : validate_callback_args (.pylist output.toList) .Output layout
      (!app.config.suppress_callback_exceptions) = .ok ())
    (hin : validate_callback_args (.pylist il) .Input layout
      (!app.config.suppress_callback_exceptions) = .ok ())
    (hstate : validate_callback_args st .State layout
      (!app.config.suppress_callback_exceptions) = .ok ())
    (hcol : ∃ di dout : Dep, ArgEl.dep di ∈ il ∧ ArgEl.dep dout ∈ output.toList ∧
      di.component_id = dout.component_id ∧
      di.component_property = dout.component_property) :
    (validate_callback app layout output (.pylist il) st).2
      = .error .SameInputOutputException := by
  obtain ⟨di, dout, hdi, hdo, hid, hprop⟩ := hcol
  have hilne : il ≠ [] := by
    intro h
    subst h
    cases hdi
  have hmi : (st.truthy && !(Args.truthy (.pylist il))) = false := by
    simp [Args.truthy, hilne]
  have heq : elEq (ArgEl.dep dout) (ArgEl.dep di) = true := by
    simp [elEq, depStr, hid, hprop]
  have hfind : (il.find? (collision_probe output)).isSome = true := by
    rw [List.find?_isSome]
    refine ⟨.dep di, hdi, ?_⟩
    cases output with
    | multi os =>
      simp only [collision_probe, List.any_eq_true]
      exact ⟨_, hdo, heq⟩
    | single o =>
      have ho : ArgEl.dep dout = o := by
        simpa [OutputSpec.toList] using hdo
      simp only [collision_probe]
      rw [← ho]
      exact heq
  obtain ⟨bad, hbad⟩ := Option.isSome_iff_exists.mp hfind
  unfold validate_callback
  simp only [hlay, Bool.false_eq_true, if_false, hout, hin, hstate, hmi,
    Args.elems, hbad]

/-- Witness for C5: single-output mode, an Input identical to the Output. -/
theorem C5_input_equals_output_fails_collision_witness :
    (validate_callback ⟨⟨true⟩, []⟩ none
        (.single (.dep ⟨.Output, .str "o", .str "p", false⟩))
        (.pylist [.dep ⟨.Input, .str "o", .str "p", false⟩]) (.pylist [])).2
      = .error .SameInputOutputException :=
  C5_input_equals_output_fails_collision ⟨⟨true⟩, []⟩ none
    (.single (.dep ⟨.Output, .str "o", .str "p", false⟩))
    [.dep ⟨.Input, .str "o", .str "p", false⟩] (.pylist [])
    (by decide) (by rfl) (by rfl) (by rfl)
    ⟨⟨.Input, .str "o", .str "p", false⟩, ⟨.Output, .str "o", .str "p", false⟩,
      by decide, by decide, rfl, rfl⟩

/-- C6: a multi-output declaration in which the same output binding (by its
`id.property` string form, the notion of equality `set()` uses for
dependencies) appears more than once fails with `DuplicateCallbackOutput`
(the within-one-declaration variant, the spec's DuplicateOutput), given that
the preceding checks pass. -/
theorem C6_duplicate_multi_output_fails (app : App) (layout : Option Layout)
    (os il : List ArgEl) (st : Args)
    (hlay : (layout.isNone && !app.config.suppress_callback_exceptions) = false)
    (hout : validate_callback_args (.pylist os) .Output layout
      (!app.config.suppress_callback_exceptions) = .ok ())
    (hin : validate_callback_args (.pylist il) .Input layout
      (!app.config.suppress_callback_exceptions) = .ok ())
    (hstate : validate_callback_args st .State layout
      (!app.config.suppress_callback_exceptions) = .ok ())
    (hmi : (st.truthy && !(Args.truthy (.pylist il))) = false)
    (hfind : il.find? (collision_probe (.multi os)) = none)
    (hdup : ¬ (os.map elStr).Nodup) :
    (validate_callback app layout (.multi os) (.pylist il) st).2
      = .error (.DuplicateCallbackOutput false) := by
  have hlen : (os.map elStr).dedup.length ≠ os.length := by
    intro h
    apply hdup
    have hsub : (os.map elStr).dedup.Sublist (os.map elStr) :=
      List.dedup_sublist _
    have hlen2 : (os.map elStr).dedup.length = (os.map elStr).length := by
      rw [h, List.length_map]
    have hde := hsub.eq_of_length hlen2
    rw [← hde]
    exact List.nodup_dedup _
  unfold validate_callback
  simp only [OutputSpec.toList, hlay, Bool.false_eq_true, if_false, hout, hin,
    hstate, hmi, Args.elems, hfind, hlen, ne_eq, not_false_eq_true, if_true]

/-- Witness for C6: the claim's example, `outputs = [(id="a",prop="children"),
(id="a",prop="children")]`. -/
theorem C6_duplicate_multi_output_fails_witness :
    (validate_callback ⟨⟨true⟩, []⟩ none
        (.multi [.dep ⟨.Output, .str "a", .str "children", false⟩,
                 .dep ⟨.Output, .str "a", .str "children", false⟩])
        (.pylist []) (.pylist [])).2
      = .error (.DuplicateCallbackOutput false) :=
  C6_duplicate_multi_output_fails ⟨⟨true⟩, []⟩ none
    [.dep ⟨.Output, .str "a", .str "children", false⟩,
     .dep ⟨.Output, .str "a", .str "children", false⟩]
    [] (.pylist [])
    (by decide) (by rfl) (by rfl) (by rfl) (by decide) (by rfl) (by decide)

/-- C7: `validate_multi_return` raises `InvalidCallbackReturnValue` iff the
returned value is not list-like (not a list or tuple) or its length differs
from the number of declared outputs, and returns successfully iff the value
is list-like with exactly matching length. -/
theorem C7_multi_return_arity_iff (output : List ArgEl) (v : RetVal) :
    (validate_multi_return output v = .error .InvalidCallbackReturnValue ↔
      (¬ v.isListLike = true ∨ v.len ≠ output.length)) ∧
    (validate_multi_return output v = .ok () ↔
      (v.isListLike = true ∧ v.len = output.length)) := by
  unfold validate_multi_return
  by_cases h : v.isListLike <;> by_cases h2 : v.len = output.length <;>
    simp [h, h2]

/-- C8 counterexample: a binding whose string id contains "." but whose
`component_property` is not a string fails with the malformed-argument
error, not `InvalidComponentIdError` — the type checks precede the "."
check, refuting "independent of the binding's other validity". -/
theorem C8_counterexample_dot_id_after_type_violation :
    (validate_callback_args
        (.pylist [.dep ⟨.Output, .str "a.b", .other "intrepr", false⟩])
        .Output none false
      = .error .IncorrectTypeException) ∧
    PyErr.IncorrectTypeException ≠ PyErr.InvalidComponentIdError := by
  constructor
  · rfl
  · decide

/-- C8 (amended): a binding of the expected kind whose `component_id` is a
string containing "." and whose `component_property` is a string fails with
`InvalidComponentIdError`, provided the bindings before it in the list pass
validation — independent of the id-checks flag, the layout, and whether the
id exists in the tree. -/
theorem C8_dot_in_id_fails_invalid_character (cls : Role)
    (layout : Option Layout) (v : Bool) (pre rest : List ArgEl) (s p : String)
    (ev : Bool)
    (hpre : validate_args_list pre cls layout v = .ok ())
    (hdot : s.data.contains '.' = true) :
    validate_callback_args
        (.pylist (pre ++ ArgEl.dep ⟨cls, .str s, .str p, ev⟩ :: rest))
        cls layout v
      = .error .InvalidComponentIdError := by
  have hd2 : '.' ∈ s.data := by simpa using hdot
  have h1 : validate_one (.dep ⟨cls, .str s, .str p, ev⟩) cls layout v
      = .error .InvalidComponentIdError := by
    simp [validate_one, hd2]
  simp only [validate_callback_args]
  rw [validate_args_list_append, hpre]
  simp only [validate_args_list, h1]

/-- Witness for C8 (amended): id "a.b", no layout, id checks requested. -/
theorem C8_dot_in_id_fails_invalid_character_witness :
    validate_callback_args
        (.pylist [ArgEl.dep ⟨.Output, .str "a.b", .str "x", false⟩]) .Output
        none true
      = .error .InvalidComponentIdError :=
  C8_dot_in_id_fails_invalid_character .Output none true [] [] "a.b" "x" false
    rfl (by decide)

/-- C9: `validate_callback` returns the application object (and with it the
registered callback set `app.callback_map`) unchanged in every branch — its
only effect is the raise/return outcome — and running it a second time on
the state left by the first run yields the identical outcome, so validating
the same declaration twice against the same registered set gives the same
result both times. -/
theorem C9_validate_callback_pure_and_idempotent (app : App)
    (layout : Option Layout) (output : OutputSpec) (inputs state : Args) :
    (validate_callback app layout output inputs state).1 = app ∧
    validate_callback ((validate_callback app layout output inputs state).1)
        layout output inputs state
      = validate_callback app layout output inputs state := by
  have h1 : (validate_callback app layout output inputs state).1 = app := by
    unfold validate_callback
    repeat' split
    all_goals rfl
  exact ⟨h1, by rw [h1]⟩

/-- C10: with id checks enabled, an argument list all of whose bindings have
the empty string as `component_property` never fails with
`NonExistentPropException`, for every layout — even one where the empty
string is neither a declared property nor matches a wildcard — because the
property-existence check is skipped for falsy property names. -/
theorem C10_empty_property_never_unknown_property (args : Args) (cls : Role)
    (layout : Option Layout)
    (h : ∀ d : Dep, ArgEl.dep d ∈ args.elems → d.component_property = .str "") :
    validate_callback_args args cls layout true
      ≠ .error .NonExistentPropException := by
  cases args with
  | notList => simp [validate_callback_args]
  | pylist l =>
    exact validate_args_list_empty_prop l cls layout
      (by simpa [Args.elems] using h)

/-- Witness for C10: a binding with empty property against a component whose
properties do not include the empty string and with no wildcards. -/
theorem C10_empty_property_never_unknown_property_witness :
    validate_callback_args
        (.pylist [.dep ⟨.Input, .str "a", .str "", false⟩]) .Input
        (some ⟨some "root", ⟨[], []⟩, [("a", ⟨["value"], []⟩)]⟩) true
      ≠ .error .NonExistentPropException :=
  C10_empty_property_never_unknown_property
    (.pylist [.dep ⟨.Input, .str "a", .str "", false⟩]) .Input
    (some ⟨some "root", ⟨[], []⟩, [("a", ⟨["value"], []⟩)]⟩)
    (by
      intro d hd
      rw [Args.elems, List.mem_singleton] at hd
      injection hd with h
      rw [h])

end DashValidate
